import Mathlib

/-!
# ProxyPay backend — shallow embedding and verification

This file embeds the core of the ProxyPay backend (`backend/api/app.py` and
`backend/geospatial/validator.py`) in Lean 4 and proves properties of the
embedded program.

Modelling conventions:

* Python numbers (amounts, coordinates, distances) are modelled as `ℚ`.
  Python `round` on floats resolves decimal ties by the binary representation;
  the embedded `pyRound` uses exact half-even rounding on `ℚ`.  No theorem in
  this file depends on tie behaviour of rounding.
* Wall-clock time is passed explicitly: `datetime.utcnow()` becomes a `now`
  parameter measured in microseconds of naive UTC time.
* Python dict lookups `d.get(k)` on request payloads become `Option` fields;
  Python truthiness of a value (`not x`, `all([...])`) is modelled by the
  `truthy` helpers (a missing value and an empty string are falsy, a dict is
  falsy iff it has no keys).
* The geodesic distance (`geopy.distance.geodesic(...).miles`) is an external
  collaborator; it is passed to the embedded functions as an argument
  `geodesicMiles`.  Likewise the Twilio verification service is passed as an
  abstract outcome.
* Exceptions raised inside a `try:` block are modelled with `Except`: a thrown
  exception is `.error msg`, and the enclosing handler turns it into the
  result that the corresponding `except` clause returns.
* WebSocket `emit` / `socketio.emit` calls are modelled by returning the list
  of emitted events alongside the new server state; global mutable dicts
  (`pending_transactions`, `completed_transactions`, `pending_2fa_transactions`,
  `mock_user_locations`, `device_registry`) become explicit state threaded
  through the transition functions, represented as association lists in
  insertion order (Python dicts preserve insertion order, and assignment to an
  existing key keeps its position).
-/

/-! ## Association lists (model of Python dicts, insertion order preserved) -/

/-- Lookup in an association list, the model of `d.get(k)` / `d[k]`. -/
def alistGet {α : Type} (l : List (String × α)) (k : String) : Option α :=
  match l with
  | [] => none
  | (k₀, v₀) :: rest => if k₀ = k then some v₀ else alistGet rest k

/-- `d[k] = v` on a Python dict: overwrite in place if the key exists
(keeping its position), otherwise append at the end. -/
def alistSet {α : Type} (l : List (String × α)) (k : String) (v : α) :
    List (String × α) :=
  match l with
  | [] => [(k, v)]
  | (k₀, v₀) :: rest =>
      if k₀ = k then (k₀, v) :: rest else (k₀, v₀) :: alistSet rest k v

/-- `k in d` on a Python dict. -/
def alistHas {α : Type} (l : List (String × α)) (k : String) : Bool :=
  (alistGet l k).isSome

/-- `del d[k]` on a Python dict. -/
def alistDel {α : Type} (l : List (String × α)) (k : String) :
    List (String × α) :=
  match l with
  | [] => []
  | (k₀, v₀) :: rest =>
      if k₀ = k then rest else (k₀, v₀) :: alistDel rest k

/-! ## Python truthiness -/

/-- Truthiness of an optional string: `None` and `''` are falsy. -/
def truthyStr : Option String → Bool
  | none => false
  | some s => !s.isEmpty

/-! ## Rounding (Python `round(x, n)`) -/

/-- `round(q * 10^n)` with ties to even, as an integer. -/
def roundHalfEvenInt (x : ℚ) : ℤ :=
  let n : ℤ := ⌊x⌋
  let frac : ℚ := x - n
  if frac < 1/2 then n
  else if frac > 1/2 then n + 1
  else if n % 2 = 0 then n else n + 1

/-- Python `round(x, n)` modelled exactly on `ℚ` (half-even at the `n`-th
decimal digit; Python resolves decimal ties by the binary float value, a
difference no theorem here depends on). -/
def pyRound (n : ℕ) (x : ℚ) : ℚ :=
  (roundHalfEvenInt (x * 10 ^ n) : ℚ) / 10 ^ n

/-! ## Decision policy

The distance/amount decision logic appears twice in `app.py`: once in the
channel path (`verify_location_proof`, lines 559–571) and once in the
synchronous path (`prove_location`, lines 1206–1218).  Each returns the
decision string together with the human-readable reason. -/

/-- Decision logic of `verify_location_proof` (app.py lines 559–571):
`if distance_meters <= 20: (if amount < 100 ACCEPT else CONFIRM_REQUIRED)
elif distance_meters <= 500: CONFIRM_REQUIRED else DENY`. -/
def verifyLocationProofDecision (distance_meters amount : ℚ) : String × String :=
  if distance_meters ≤ 20 then
    if amount < 100 then
      ("ACCEPT", "Co-located low-value transaction")
    else
      ("CONFIRM_REQUIRED", "High-value co-located transaction requires confirmation")
  else if distance_meters ≤ 500 then
    ("CONFIRM_REQUIRED", "Location mismatch - confirmation required")
  else
    ("DENY", "Location too far from phone")

/-- Decision logic of `prove_location` (app.py lines 1206–1218):
`if distance_meters <= 20: (if amount > 100 CONFIRM_REQUIRED else ACCEPT)
elif distance_meters <= 500: CONFIRM_REQUIRED else DENY`.
Note the high-value test is `amount > 100`, not `amount >= 100`. -/
def proveLocationDecision (distance_meters amount : ℚ) : String × String :=
  if distance_meters ≤ 20 then
    if amount > 100 then
      ("CONFIRM_REQUIRED", "High-value transaction - confirmation required")
    else
      ("ACCEPT", "Co-located transaction")
  else if distance_meters ≤ 500 then
    ("CONFIRM_REQUIRED", "Location mismatch - confirmation required")
  else
    ("DENY", "Location too far from phone")

example : (verifyLocationProofDecision 0 50).1 = "ACCEPT" := by decide
example : (verifyLocationProofDecision 0 100).1 = "CONFIRM_REQUIRED" := by decide
example : (proveLocationDecision 0 100).1 = "ACCEPT" := by decide
example : (proveLocationDecision 300 20).1 = "CONFIRM_REQUIRED" := by decide
example : (proveLocationDecision 5000 20).1 = "DENY" := by decide

/-! ## Bytes, SHA-256, base64, hex (models of `hashlib` / `base64` / `.encode()`)

Bytes are `Nat` values below 256; 32-bit words are `Nat` values reduced
modulo `2^32` after every arithmetic step. -/

/-- Reduce to a 32-bit word. -/
def w32 (x : ℕ) : ℕ := x % 4294967296

/-- Rotate a 32-bit word right by `n` bits. -/
def rotr32 (n x : ℕ) : ℕ := w32 ((x >>> n) ||| (x <<< (32 - n)))

/-- Big-endian byte rendering of `n` using `len` bytes. -/
def natToBytesBE (n len : ℕ) : List ℕ :=
  (List.range len).map (fun i => (n >>> (8 * (len - 1 - i))) % 256)

/-- The SHA-256 round constant table (FIPS 180-4), written in decimal. -/
def sha256K : List ℕ :=
  [1116352408, 1899447441, 3049323471, 3921009573, 961987163,
   1508970993, 2453635748, 2870763221, 3624381080, 310598401,
   607225278, 1426881987, 1925078388, 2162078206, 2614888103,
   3248222580, 3835390401, 4022224774, 264347078, 604807628,
   770255983, 1249150122, 1555081692, 1996064986, 2554220882,
   2821834349, 2952996808, 3210313671, 3336571891, 3584528711,
   113926993, 338241895, 666307205, 773529912, 1294757372,
   1396182291, 1695183700, 1986661051, 2177026350, 2456956037,
   2730485921, 2820302411, 3259730800, 3345764771, 3516065817,
   3600352804, 4094571909, 275423344, 430227734, 506948616,
   659060556, 883997877, 958139571, 1322822218, 1537002063,
   1747873779, 1955562222, 2024104815, 2227730452, 2361852424,
   2428436474, 2756734187, 3204031479, 3329325298]

/-- The SHA-256 initial hash state, written in decimal. -/
def sha256H0 : List ℕ :=
  [1779033703, 3144134277, 1013904242, 2773480762,
   1359893119, 2600822924, 528734635, 1541459225]

/-- SHA-256 message padding: append `0x80`, zero bytes up to 56 mod 64, and
the 64-bit big-endian bit length. -/
def sha256Pad (msg : List ℕ) : List ℕ :=
  let L := msg.length
  let k := (64 - ((L + 9) % 64)) % 64
  msg ++ [0x80] ++ List.replicate k 0 ++ natToBytesBE (L * 8) 8

/-- Split a byte list into 64-byte blocks (structural recursion on a fuel
argument so that the kernel can evaluate it; the fuel `l.length` always
suffices because each step drops 64 > 0 elements of a nonempty list). -/
def chunks64Fuel : ℕ → List ℕ → List (List ℕ)
  | 0, _ => []
  | _, [] => []
  | fuel + 1, l => l.take 64 :: chunks64Fuel fuel (l.drop 64)

/-- Split a byte list into 64-byte blocks. -/
def chunks64 (l : List ℕ) : List (List ℕ) := chunks64Fuel l.length l

/-- 32-bit word at index `i` of a 64-byte block (big endian). -/
def blockWord (block : List ℕ) (i : ℕ) : ℕ :=
  (block.getD (4 * i) 0) <<< 24 ||| (block.getD (4 * i + 1) 0) <<< 16 |||
  (block.getD (4 * i + 2) 0) <<< 8 ||| block.getD (4 * i + 3) 0

/-- SHA-256 message schedule: 64 words extended from the 16 block words. -/
def sha256Schedule (block : List ℕ) : Array ℕ :=
  let w0 : Array ℕ := ((List.range 16).map (blockWord block)).toArray
  (List.range 48).foldl
    (fun w j =>
      let i := j + 16
      let x15 := w.getD (i - 15) 0
      let x2 := w.getD (i - 2) 0
      let s0 := rotr32 7 x15 ^^^ rotr32 18 x15 ^^^ (x15 >>> 3)
      let s1 := rotr32 17 x2 ^^^ rotr32 19 x2 ^^^ (x2 >>> 10)
      w.push (w32 (w.getD (i - 16) 0 + s0 + w.getD (i - 7) 0 + s1)))
    w0

/-- Working state of the SHA-256 compression function. -/
structure Sha256Regs where
  ra : ℕ
  rb : ℕ
  rc : ℕ
  rd : ℕ
  re : ℕ
  rf : ℕ
  rg : ℕ
  rh : ℕ

/-- One round of the SHA-256 compression function. -/
def sha256Round (k w : ℕ) (s : Sha256Regs) : Sha256Regs :=
  let bigS1 := rotr32 6 s.re ^^^ rotr32 11 s.re ^^^ rotr32 25 s.re
  let ch := (s.re &&& s.rf) ^^^ ((s.re ^^^ 4294967295) &&& s.rg)
  let temp1 := w32 (s.rh + bigS1 + ch + k + w)
  let bigS0 := rotr32 2 s.ra ^^^ rotr32 13 s.ra ^^^ rotr32 22 s.ra
  let maj := (s.ra &&& s.rb) ^^^ (s.ra &&& s.rc) ^^^ (s.rb &&& s.rc)
  let temp2 := w32 (bigS0 + maj)
  { ra := w32 (temp1 + temp2), rb := s.ra, rc := s.rb, rd := s.rc,
    re := w32 (s.rd + temp1), rf := s.re, rg := s.rf, rh := s.rg }

/-- Process one 64-byte block, updating the running hash values. -/
def sha256Block (hs : List ℕ) (block : List ℕ) : List ℕ :=
  let w := sha256Schedule block
  let init : Sha256Regs :=
    { ra := hs.getD 0 0, rb := hs.getD 1 0, rc := hs.getD 2 0, rd := hs.getD 3 0,
      re := hs.getD 4 0, rf := hs.getD 5 0, rg := hs.getD 6 0, rh := hs.getD 7 0 }
  let fin := (List.range 64).foldl
    (fun s i => sha256Round (sha256K.getD i 0) (w.getD i 0) s) init
  [w32 (hs.getD 0 0 + fin.ra), w32 (hs.getD 1 0 + fin.rb),
   w32 (hs.getD 2 0 + fin.rc), w32 (hs.getD 3 0 + fin.rd),
   w32 (hs.getD 4 0 + fin.re), w32 (hs.getD 5 0 + fin.rf),
   w32 (hs.getD 6 0 + fin.rg), w32 (hs.getD 7 0 + fin.rh)]

/-- SHA-256 digest (32 bytes) of a byte list; model of `hashlib.sha256(.).digest()`. -/
def sha256Bytes (msg : List ℕ) : List ℕ :=
  let hs := (chunks64 (sha256Pad msg)).foldl sha256Block sha256H0
  (hs.map (natToBytesBE · 4)).flatten

/-- Lower-case hexadecimal digit. -/
def hexChar (n : ℕ) : Char :=
  if n < 10 then Char.ofNat (48 + n) else Char.ofNat (87 + n)

/-- Lower-case hex string of a byte list; model of `.hexdigest()`. -/
def bytesToHex (bs : List ℕ) : String :=
  ⟨(bs.map (fun b => [hexChar (b / 16), hexChar (b % 16)])).flatten⟩

/-- Character of the standard base64 alphabet. -/
def b64Char (n : ℕ) : Char :=
  if n < 26 then Char.ofNat (65 + n)
  else if n < 52 then Char.ofNat (97 + (n - 26))
  else if n < 62 then Char.ofNat (48 + (n - 52))
  else if n = 62 then '+' else '/'

/-- Base64 encoding with padding, three input bytes at a time. -/
def b64Chunks : List ℕ → List Char
  | b0 :: b1 :: b2 :: rest =>
      let n := b0 * 65536 + b1 * 256 + b2
      b64Char (n / 262144) :: b64Char (n / 4096 % 64) ::
        b64Char (n / 64 % 64) :: b64Char (n % 64) :: b64Chunks rest
  | [b0, b1] =>
      let n := b0 * 65536 + b1 * 256
      [b64Char (n / 262144), b64Char (n / 4096 % 64), b64Char (n / 64 % 64), '=']
  | [b0] =>
      let n := b0 * 65536
      [b64Char (n / 262144), b64Char (n / 4096 % 64), '=', '=']
  | [] => []

/-- Model of `base64.b64encode(bytes).decode('utf-8')`. -/
def base64Encode (bs : List ℕ) : String := ⟨b64Chunks bs⟩

/-- UTF-8 encoding of one character. -/
def utf8EncodeChar (c : Char) : List ℕ :=
  let n := c.toNat
  if n < 0x80 then [n]
  else if n < 0x800 then [0xC0 + n / 64, 0x80 + n % 64]
  else if n < 0x10000 then [0xE0 + n / 4096, 0x80 + n / 64 % 64, 0x80 + n % 64]
  else [0xF0 + n / 262144, 0x80 + n / 4096 % 64, 0x80 + n / 64 % 64, 0x80 + n % 64]

/-- Model of Python `str.encode()` (UTF-8 bytes). -/
def strToBytes (s : String) : List ℕ := (s.data.map utf8EncodeChar).flatten

/-! ## Canonical JSON (model of `json.dumps(data, sort_keys=True)`) -/

/-- Four-digit hex rendering for `\uXXXX` escapes. -/
def hex4 (n : ℕ) : List Char :=
  [hexChar (n / 4096 % 16), hexChar (n / 256 % 16), hexChar (n / 16 % 16),
   hexChar (n % 16)]

/-- Escaping of one character inside a JSON string, as `json.dumps` does with
its default `ensure_ascii=True` (characters outside `0x20`–`0x7e` become
`\uXXXX`, astral characters become surrogate pairs). -/
def jsonEscapeChar (c : Char) : List Char :=
  if c = '"' then ['\\', '"']
  else if c = '\\' then ['\\', '\\']
  else if c = '\n' then ['\\', 'n']
  else if c = '\r' then ['\\', 'r']
  else if c = '\t' then ['\\', 't']
  else if c.toNat = 8 then ['\\', 'b']
  else if c.toNat = 12 then ['\\', 'f']
  else if 32 ≤ c.toNat && c.toNat ≤ 126 then [c]
  else if c.toNat < 0x10000 then '\\' :: 'u' :: hex4 c.toNat
  else
    let v := c.toNat - 0x10000
    ('\\' :: 'u' :: hex4 (0xD800 + v / 1024)) ++ '\\' :: 'u' :: hex4 (0xDC00 + v % 1024)

/-- A JSON string literal with quotes, as `json.dumps` writes it. -/
def jsonString (s : String) : String :=
  "\"" ++ ⟨(s.data.map jsonEscapeChar).flatten⟩ ++ "\""

/-- Decimal digits of `n`, left-padded with zeros to `k` digits. -/
def padNatDigits (k n : ℕ) : String :=
  let s := toString n
  ⟨List.replicate (k - s.length) '0'⟩ ++ s

/-- Smallest exponent `k ≤ 40` with `q * 10^k` integral, if any. -/
def decExp (q : ℚ) : Option ℕ :=
  (List.range 41).find? (fun k => (q * 10 ^ k).den = 1)

/-- Rendering of a number inside `json.dumps` output.  The Python source
serializes floats with `float.__repr__` (shortest round-trip decimal); this
model renders the exact decimal expansion of the rational, which agrees with
Python on every decimal-representable value in the plain (non-scientific)
notation range.  Integral values are rendered with a trailing `.0` as Python
does for floats. -/
def qRepr (q : ℚ) : String :=
  let sign := if q < 0 then "-" else ""
  let a : ℚ := |q|
  if a.den = 1 then sign ++ toString a.num ++ ".0"
  else
    match decExp a with
    | some k =>
        let scaled : ℕ := (a * 10 ^ k).num.toNat
        sign ++ toString (scaled / 10 ^ k) ++ "." ++ padNatDigits k (scaled % 10 ^ k)
    | none => sign ++ toString a.num ++ "/" ++ toString a.den

/-- The `location` value of a proof: a JSON object expected to carry `lat`
and `lon` number entries.  `extraKeys` records only whether the dict has keys
other than `lat`/`lon` (it feeds Python truthiness of the dict; the canonical
serialization is modelled for `lat`/`lon` objects, the only shape the mobile
app produces). -/
structure LocDict where
  lat? : Option ℚ
  lon? : Option ℚ
  extraKeys : Bool := false
deriving DecidableEq

/-- Truthiness of a location dict: a Python dict is falsy iff empty. -/
def LocDict.truthy (d : LocDict) : Bool :=
  d.lat?.isSome || d.lon?.isSome || d.extraKeys

/-- `json.dumps` of the location object with sorted keys (`"lat" < "lon"`). -/
def locDictJson (d : LocDict) : String :=
  let entries :=
    (match d.lat? with
     | some v => ["\"lat\": " ++ qRepr v]
     | none => []) ++
    (match d.lon? with
     | some v => ["\"lon\": " ++ qRepr v]
     | none => [])
  "\x7b" ++ String.intercalate ", " entries ++ "\x7d"

/-- The `proof_data` dict built by `verify_location_proof` / `prove_location`
for signature verification (all fields have passed the truthiness check). -/
structure ProofData where
  card_token : String
  transaction_nonce : String
  transaction_id : String
  location : LocDict
  timestamp : String
  attestation : String
deriving DecidableEq

/-- `json.dumps(proof_data, sort_keys=True)`: keys in lexicographic order
(`attestation`, `card_token`, `location`, `timestamp`, `transaction_id`,
`transaction_nonce`), item separator `", "`, key separator `": "`. -/
def canonicalProofData (pd : ProofData) : String :=
  "\x7b" ++ String.intercalate ", "
    ["\"attestation\": " ++ jsonString pd.attestation,
     "\"card_token\": " ++ jsonString pd.card_token,
     "\"location\": " ++ locDictJson pd.location,
     "\"timestamp\": " ++ jsonString pd.timestamp,
     "\"transaction_id\": " ++ jsonString pd.transaction_id,
     "\"transaction_nonce\": " ++ jsonString pd.transaction_nonce] ++ "\x7d"

/-! ## Signature verification (`verify_signature`, app.py lines 134–167) -/

/-- The signature the backend recomputes:
`hashlib.sha256((base64(sha256(canonical_data)) + private_key).encode()).hexdigest()`. -/
def expectedSignature (canonical_data private_key : String) : String :=
  let data_hash_b64 := base64Encode (sha256Bytes (strToBytes canonical_data))
  bytesToHex (sha256Bytes (strToBytes (data_hash_b64 ++ private_key)))

/-- `verify_signature(data, signature, private_key)` (app.py lines 134–167)
on the dict call sites used by the app: serialize with sorted keys, hash,
base64, concatenate the shared secret, hash again, hex, compare with the
submitted signature.  The function's internal `try/except` returns `False`
on an exception; no step of this pipeline can raise on the modelled inputs. -/
def verify_signature (data : ProofData) (signature private_key : String) : Bool :=
  signature == expectedSignature (canonicalProofData data) private_key

/-! ## Timestamp freshness (model of `datetime.fromisoformat` and the
`utcnow()` subtraction)

Both `verify_location_proof` (app.py lines 515–530) and `prove_location`
(lines 1159–1174) run
`proof_time = datetime.fromisoformat(timestamp.replace('Z', '+00:00'))` and
then `now = datetime.utcnow().replace(tzinfo=proof_time.tzinfo)`.  Because
`now` is stamped with the *same* `tzinfo` as `proof_time`, the subtraction
`(now - proof_time).total_seconds()` equals the difference of the naive
components: a parsed UTC offset is validated but then cancels out.  The
parser below therefore returns the naive timestamp in microseconds,
validating the offset as `fromisoformat` does (Python ≤ 3.10 grammar:
`YYYY-MM-DD[<sep>HH[:MM[:SS[.fff|.ffffff]]][±HH:MM[:SS[.ffffff]]]]`) and
discarding it. -/

/-- Value of a decimal digit character. -/
def digitVal? (c : Char) : Option ℕ :=
  if c.isDigit then some (c.toNat - 48) else none

/-- Parse exactly two decimal digits. -/
def parse2 : List Char → Option (ℕ × List Char)
  | a :: b :: rest => do
      let x ← digitVal? a
      let y ← digitVal? b
      pure (10 * x + y, rest)
  | _ => none

/-- Parse exactly four decimal digits. -/
def parse4 (l : List Char) : Option (ℕ × List Char) := do
  let (x, r) ← parse2 l
  let (y, r₂) ← parse2 r
  pure (100 * x + y, r₂)

/-- Parse exactly `n` decimal digits into a number. -/
def parseNDigits : ℕ → List Char → Option (ℕ × List Char)
  | 0, l => some (0, l)
  | n + 1, [] => none
  | n + 1, c :: rest => do
      let d ← digitVal? c
      let (v, r) ← parseNDigits n rest
      pure (d * 10 ^ n + v, r)

/-- Parse `HH[:MM[:SS[.fff|.ffffff]]]` returning hours, minutes, seconds,
microseconds and the rest of the input (the `fromisoformat` time grammar;
a three-digit fraction counts milliseconds). -/
def parseTimeChars (l : List Char) : Option (ℕ × ℕ × ℕ × ℕ × List Char) := do
  let (h, r) ← parse2 l
  match r with
  | ':' :: r₂ => do
      let (mi, r₃) ← parse2 r₂
      match r₃ with
      | ':' :: r₄ => do
          let (s, r₅) ← parse2 r₄
          match r₅ with
          | '.' :: r₆ =>
              (match parseNDigits 6 r₆ with
               | some (f, r₇) => pure (h, mi, s, f, r₇)
               | none => do
                  let (f, r₇) ← parseNDigits 3 r₆
                  pure (h, mi, s, f * 1000, r₇))
          | _ => pure (h, mi, s, 0, r₅)
      | _ => pure (h, mi, 0, 0, r₃)
  | _ => pure (h, 0, 0, 0, r)

/-- Gregorian leap year. -/
def isLeap (y : ℕ) : Bool := (y % 4 = 0 && y % 100 ≠ 0) || y % 400 = 0

/-- Days in a month. -/
def daysInMonth (y m : ℕ) : ℕ :=
  if m = 2 then (if isLeap y then 29 else 28)
  else if m = 4 || m = 6 || m = 9 || m = 11 then 30
  else 31

/-- Days from 1970-01-01 to the given civil date (valid for year ≥ 1). -/
def daysFromCivil (y m d : ℕ) : ℤ :=
  let y₁ := if m ≤ 2 then y - 1 else y
  let era := y₁ / 400
  let yoe := y₁ % 400
  let mp := (m + 9) % 12
  let doy := (153 * mp + 2) / 5 + d - 1
  let doe := yoe * 365 + yoe / 4 - yoe / 100 + doy
  (era * 146097 + doe : ℤ) - 719468

/-- Naive timestamp in microseconds since the epoch. -/
def tsMicros (y m d h mi s f : ℕ) : ℤ :=
  daysFromCivil y m d * 86400000000 +
    ((h * 3600000000 + mi * 60000000 + s * 1000000 + f : ℕ) : ℤ)

/-- Parse an optional trailing UTC offset `±HH:MM[:SS[.ffffff]]`, validating
it as `timezone(timedelta(...))` does (magnitude below 24 hours); the offset
value itself is discarded (see the section comment). -/
def parseOffsetTail (l : List Char) : Option Unit := do
  let rest ← match l with
             | '+' :: r => some r
             | '-' :: r => some r
             | _ => none
  let (h, mi, s, f, r) ← parseTimeChars rest
  match r with
  | [] =>
      if h * 3600000000 + mi * 60000000 + s * 1000000 + f < 86400000000 then
        some ()
      else none
  | _ => none

/-- `datetime.fromisoformat` on the Z-replaced string, reduced to the naive
microsecond count (offset validated, then discarded). -/
def fromIsoNaiveMicros (str : String) : Option ℤ := do
  let (y, r₁) ← parse4 str.data
  let r₂ ← match r₁ with
           | '-' :: r => some r
           | _ => none
  let (mo, r₃) ← parse2 r₂
  let r₄ ← match r₃ with
           | '-' :: r => some r
           | _ => none
  let (d, rest) ← parse2 r₄
  if 1 ≤ y && y ≤ 9999 && 1 ≤ mo && mo ≤ 12 && 1 ≤ d && d ≤ daysInMonth y mo then
    match rest with
    | [] => pure (tsMicros y mo d 0 0 0 0)
    | _sep :: timePart => do
        let (h, mi, s, f, tail) ← parseTimeChars timePart
        if h ≤ 23 && mi ≤ 59 && s ≤ 59 then
          match tail with
          | [] => pure (tsMicros y mo d h mi s f)
          | _ => do
              let _ ← parseOffsetTail tail
              pure (tsMicros y mo d h mi s f)
        else none
  else none

/-- Character-level worker for `replaceZ`. -/
def replaceZChars : List Char → List Char
  | [] => []
  | c :: rest =>
      if c = 'Z' then
        '+' :: '0' :: '0' :: ':' :: '0' :: '0' :: replaceZChars rest
      else c :: replaceZChars rest

/-- `timestamp.replace('Z', '+00:00')`: every occurrence of the single
character `Z` becomes `+00:00`. -/
def replaceZ (timestamp : String) : String := ⟨replaceZChars timestamp.data⟩

/-- The timestamp handling of the freshness check:
`datetime.fromisoformat(timestamp.replace('Z', '+00:00'))`, reduced to naive
microseconds.  `None` models a raised `ValueError` (caught by the bare
`except`, which returns the invalid-timestamp-format denial). -/
def parseTimestamp (timestamp : String) : Option ℤ :=
  fromIsoNaiveMicros (replaceZ timestamp)

/-! ## Data model of the app state -/

/-- A device registry entry (`device_registry[card_token]`). -/
structure DeviceInfo where
  public_key : Option String
  private_key : Option String
deriving DecidableEq

/-- A location proof payload as submitted by the device (every field read
with `.get`, hence optional). -/
structure LocationProof where
  card_token : Option String
  transaction_nonce : Option String
  transaction_id : Option String
  location : Option LocDict
  timestamp : Option String
  attestation : Option String
  signature : Option String
deriving DecidableEq

/-- The result dict produced by `verify_location_proof` and by the
confirmation/timeout resolutions: `{success, result, reason}` plus
`distance_meters` on the branches that set it. -/
structure VerificationResult where
  success : Bool
  result : String
  reason : String
  distance_meters : Option ℚ := none
deriving DecidableEq

/-- `x.get('distance_meters', 0)` on an optional result dict. -/
def resultDistance (r : Option VerificationResult) : ℚ :=
  match r with
  | none => 0
  | some v => v.distance_meters.getD 0

/-- A `pending_transactions` entry. -/
structure PendingTx where
  card_token : String
  transaction_nonce : Option String
  pos_location : Option LocDict
  amount : Option ℚ
  merchant_name : Option String
  timestamp : String
  status : String
  result : Option VerificationResult := none
deriving DecidableEq

/-- A `completed_transactions` entry: shallow copy of the pending record
plus `completed_at`. -/
structure CompletedTx where
  tx : PendingTx
  completed_at : String
deriving DecidableEq

/-- `a.startswith(b)` on character lists. -/
def charsStartWith : List Char → List Char → Bool
  | _, [] => true
  | [], _ :: _ => false
  | c :: cs, p :: ps => c == p && charsStartWith cs ps

/-- `verify_attestation(attestation_token)` (app.py lines 130–132):
`attestation_token and attestation_token.startswith('mock_attestation_')`. -/
def verify_attestation (attestation_token : Option String) : Bool :=
  match attestation_token with
  | none => false
  | some s => !s.isEmpty && charsStartWith s.data "mock_attestation_".data

/-! ## Geospatial validator (`backend/geospatial/validator.py`) -/

/-- Output dict of `LocationValidator.validate_transaction`. -/
structure ValidatorResult where
  valid : Bool
  distance_miles : ℚ
  reason : String
deriving DecidableEq

/-- `LocationValidator.validate_transaction(phone_location,
transaction_location)`: geodesic distance in miles (the external geodesy
collaborator `geodesicMiles`), validity at `max_distance_miles`, distance
rounded to 6 decimals. -/
def validateTransaction (geodesicMiles : ℚ × ℚ → ℚ × ℚ → ℚ)
    (max_distance_miles : ℚ) (phone_location transaction_location : ℚ × ℚ) :
    ValidatorResult :=
  let distance := geodesicMiles phone_location transaction_location
  let is_valid := distance ≤ max_distance_miles
  { valid := is_valid,
    distance_miles := pyRound 6 distance,
    reason :=
      if is_valid then
        "Transaction within " ++ qRepr max_distance_miles ++ " miles"
      else
        "Transaction " ++ qRepr (pyRound 6 distance) ++ " miles away (max: " ++
          qRepr max_distance_miles ++ ")" }

/-! ## `verify_location_proof` (app.py lines 440–585) -/

/-- Failure result of a given reason: `{'success': False, 'result': 'DENY',
'reason': reason}` (no `distance_meters` key). -/
def denyResult (reason : String) : VerificationResult :=
  { success := false, result := "DENY", reason := reason }

/-- The result returned by the outer `except Exception as e` handler. -/
def verificationError (e : String) : VerificationResult :=
  denyResult ("Verification error: " ++ e)

/-- `float(location['lat'])`, `float(location['lon'])`: raises `KeyError`
when the key is absent (the numeric values themselves are already `ℚ` in the
model, so `float()` cannot fail). -/
def locLatLon (d : LocDict) : Except String (ℚ × ℚ) :=
  match d.lat?, d.lon? with
  | some la, some lo => Except.ok (la, lo)
  | some _, none => Except.error "KeyError: lon"
  | _, _ => Except.error "KeyError: lat"

/-- Truthiness of an optional dict value. -/
def truthyLoc : Option LocDict → Bool
  | none => false
  | some d => d.truthy

/-- Meters per mile used by the app (`distance_miles * 1609.34`). -/
def metersPerMile : ℚ := 160934 / 100

/-- Body of the `try:` block of `verify_location_proof`; `.error` models an
exception reaching the outer handler (here: `KeyError` from a location dict
missing `lat`/`lon`). -/
def verifyLocationProofCore (registry : List (String × DeviceInfo))
    (geodesicMiles : ℚ × ℚ → ℚ × ℚ → ℚ) (now : ℤ)
    (location_proof : LocationProof) (pending_transaction : PendingTx) :
    Except String VerificationResult :=
  match location_proof.card_token, location_proof.transaction_nonce,
        location_proof.transaction_id, location_proof.location,
        location_proof.timestamp, location_proof.attestation,
        location_proof.signature with
  | some ct, some tn, some ti, some loc, some ts, some att, some sig =>
    if ct.isEmpty || tn.isEmpty || ti.isEmpty || !loc.truthy || ts.isEmpty ||
        att.isEmpty || sig.isEmpty then
      Except.ok (denyResult "Missing required fields")
    else
      match alistGet registry ct with
      | none => Except.ok (denyResult "Device not registered")
      | some device_info =>
        if !truthyStr device_info.private_key ||
            !truthyStr device_info.public_key then
          Except.ok (denyResult "Device keys not available")
        else
          let private_key := device_info.private_key.getD ""
          if !verify_attestation (some att) then
            Except.ok (denyResult "Invalid device attestation")
          else
            let proof_data : ProofData :=
              { card_token := ct, transaction_nonce := tn,
                transaction_id := ti, location := loc, timestamp := ts,
                attestation := att }
            if !verify_signature proof_data sig private_key then
              Except.ok (denyResult "Invalid digital signature")
            else
              match parseTimestamp ts with
              | none => Except.ok (denyResult "Invalid timestamp format")
              | some t =>
                if now - t > 300000000 then
                  Except.ok (denyResult "Proof timestamp too old")
                else
                  if !truthyLoc pending_transaction.pos_location then
                    Except.ok (denyResult "POS location not available")
                  else do
                    let (mlat, mlon) ← locLatLon loc
                    let (plat, plon) ← locLatLon
                      (pending_transaction.pos_location.getD
                        { lat? := none, lon? := none })
                    let mobile_app_coords := (pyRound 8 mlat, pyRound 8 mlon)
                    let pos_coords := (pyRound 8 plat, pyRound 8 plon)
                    let validation_result :=
                      validateTransaction geodesicMiles (1/4)
                        mobile_app_coords pos_coords
                    let distance_meters :=
                      validation_result.distance_miles * metersPerMile
                    let amount := pending_transaction.amount.getD 0
                    let rr := verifyLocationProofDecision distance_meters amount
                    pure { success := true, result := rr.1, reason := rr.2,
                           distance_meters := some (pyRound 2 distance_meters) }
  | _, _, _, _, _, _, _ => Except.ok (denyResult "Missing required fields")

/-- `verify_location_proof(location_proof, pending_transaction)` (app.py
lines 440–585).  Ambient state (`device_registry`), the geodesy collaborator
and the wall clock are explicit arguments. -/
def verify_location_proof (registry : List (String × DeviceInfo))
    (geodesicMiles : ℚ × ℚ → ℚ × ℚ → ℚ) (now : ℤ)
    (location_proof : LocationProof) (pending_transaction : PendingTx) :
    VerificationResult :=
  match verifyLocationProofCore registry geodesicMiles now location_proof
      pending_transaction with
  | Except.ok r => r
  | Except.error e => verificationError e

/-! ## `prove_location` (app.py lines 1040–1232) -/

/-- A `mock_user_locations` entry. -/
structure UserData where
  location : ℚ × ℚ
  phone : String
deriving DecidableEq

/-- The request body of `POST /api/prove-location`: the proof fields plus an
optional `amount` (read as `data.get('amount', 0)`). -/
structure ProveLocationReq where
  card_token : Option String
  transaction_nonce : Option String
  transaction_id : Option String
  location : Option LocDict
  timestamp : Option String
  attestation : Option String
  signature : Option String
  amount : Option ℚ := none
deriving DecidableEq

/-- The Harvard Square default location auto-provisioned for unknown cards. -/
def defaultUserData : UserData :=
  { location := (42377/1000, -711167/10000), phone := "+1234567890" }

/-- Body of the `try:` block of `prove_location`.  The route returns a
response dict of the same `{success, result, reason, distance_meters}` shape
together with the HTTP status code, and may mutate `mock_user_locations`
(auto-provisioning); an `.error` carries the exception message together with
the user-location map as mutated up to the raise point. -/
def proveLocationCore (registry : List (String × DeviceInfo))
    (userLocations : List (String × UserData))
    (geodesicMiles : ℚ × ℚ → ℚ × ℚ → ℚ) (now : ℤ) (data : ProveLocationReq) :
    Except (String × List (String × UserData))
      ((VerificationResult × ℕ) × List (String × UserData)) :=
  match data.card_token, data.transaction_nonce, data.transaction_id,
        data.location, data.timestamp, data.attestation, data.signature with
  | some ct, some tn, some ti, some loc, some ts, some att, some sig =>
    if ct.isEmpty || tn.isEmpty || ti.isEmpty || !loc.truthy || ts.isEmpty ||
        att.isEmpty || sig.isEmpty then
      Except.ok ((denyResult "Missing required fields", 400), userLocations)
    else
      match alistGet registry ct with
      | none =>
          Except.ok ((denyResult "Device not registered", 400), userLocations)
      | some device_info =>
        if !truthyStr device_info.public_key ||
            !truthyStr device_info.private_key then
          Except.ok ((denyResult "Device keys not available", 400),
            userLocations)
        else
          let private_key := device_info.private_key.getD ""
          if !verify_attestation (some att) then
            Except.ok ((denyResult "Invalid device attestation", 400),
              userLocations)
          else
            let proof_data : ProofData :=
              { card_token := ct, transaction_nonce := tn,
                transaction_id := ti, location := loc, timestamp := ts,
                attestation := att }
            if !verify_signature proof_data sig private_key then
              Except.ok ((denyResult "Invalid digital signature", 400),
                userLocations)
            else
              match parseTimestamp ts with
              | none =>
                  Except.ok ((denyResult "Invalid timestamp format", 400),
                    userLocations)
              | some t =>
                if now - t > 300000000 then
                  Except.ok ((denyResult "Proof timestamp too old", 400),
                    userLocations)
                else
                  let (user_data, userLocations₁) :=
                    match alistGet userLocations ct with
                    | some ud => (ud, userLocations)
                    | none =>
                        (defaultUserData,
                         alistSet userLocations ct defaultUserData)
                  match locLatLon loc with
                  | Except.error e => Except.error (e, userLocations₁)
                  | Except.ok (tlat, tlon) =>
                    let phone_location := user_data.location
                    let trans_coords := (pyRound 8 tlat, pyRound 8 tlon)
                    let validation_result :=
                      validateTransaction geodesicMiles (1/4) phone_location
                        trans_coords
                    let distance_meters :=
                      validation_result.distance_miles * metersPerMile
                    let amount := data.amount.getD 0
                    let rr := proveLocationDecision distance_meters amount
                    Except.ok
                      (({ success := true, result := rr.1, reason := rr.2,
                          distance_meters := some (pyRound 2 distance_meters) },
                        200), userLocations₁)
  | _, _, _, _, _, _, _ =>
      Except.ok ((denyResult "Missing required fields", 400), userLocations)

/-- `prove_location()` (app.py lines 1040–1232): the synchronous proof
verification route.  Returns the response body, the HTTP status code and the
updated `mock_user_locations` map; the outer `except` returns a 500 server
error, still DENY-shaped. -/
def prove_location (registry : List (String × DeviceInfo))
    (userLocations : List (String × UserData))
    (geodesicMiles : ℚ × ℚ → ℚ × ℚ → ℚ) (now : ℤ) (data : ProveLocationReq) :
    (VerificationResult × ℕ) × List (String × UserData) :=
  match proveLocationCore registry userLocations geodesicMiles now data with
  | Except.ok x => x
  | Except.error (e, uls) =>
      ((denyResult ("Server error: " ++ e), 500), uls)

/-! ## Channel (WebSocket) transaction state machine

The handlers mutate the global dicts `pending_transactions` and
`completed_transactions` and emit socket events; both effects are made
explicit.  Note that Python `.get(key, default)` falls back to the default
only when the key is *absent*: pending records always carry their
`amount`/`merchant_name` keys (possibly holding `None`), so those reads
return the stored optional value and the written defaults are dead code —
the emitted payloads below therefore carry the raw optional values. -/

/-- The global dicts driven by the channel handlers. -/
structure ChannelState where
  pending : List (String × PendingTx)
  completed : List (String × CompletedTx)
deriving DecidableEq

/-- Events emitted over the socket: `emit('error', ...)` back to the
requester, and `socketio.emit(event, payload, room=...)` broadcasts. -/
inductive Emit
  | errorEvt (message : String)
  | confirmationRequest (room : String) (transaction_id : String)
      (amount : Option ℚ) (merchant_name : Option String)
      (distance_meters : ℚ) (reason : String)
  | transactionResult (room : String) (transaction_id : String)
      (result : VerificationResult)
  | transactionCompleted (room : String) (transaction_id : String)
      (card_token : String) (transaction : CompletedTx)
deriving DecidableEq

/-- `handle_location_proof_response(data)` (app.py lines 284–374): verify the
proof, mark the transaction completed, store it in the history, then either
escalate to confirmation (CONFIRM_REQUIRED) or notify the POS and device
channels.  `now` is the wall clock in microseconds (used by the freshness
check), `now_iso` its `isoformat()` string (stored as `completed_at`).  A
truthy non-dict `location_proof` is modelled as `some lp`; the decorated
handler's own `try/except` is unreachable because `verify_location_proof`
catches its exceptions.  The 30-second confirmation timer started on the
CONFIRM_REQUIRED branch is modelled as the separate `timeout_confirmation`
transition. -/
def handle_location_proof_response (registry : List (String × DeviceInfo))
    (geodesicMiles : ℚ × ℚ → ℚ × ℚ → ℚ) (now : ℤ) (now_iso : String)
    (transaction_id : Option String) (location_proof : Option LocationProof)
    (st : ChannelState) : ChannelState × List Emit :=
  if !truthyStr transaction_id || location_proof.isNone then
    (st, [Emit.errorEvt "Missing transaction ID or location proof"])
  else
    let txid := transaction_id.getD ""
    let lp := location_proof.getD
      { card_token := none, transaction_nonce := none, transaction_id := none,
        location := none, timestamp := none, attestation := none,
        signature := none }
    match alistGet st.pending txid with
    | none => (st, [Emit.errorEvt "Transaction not found"])
    | some pending_tx =>
      let card_token := pending_tx.card_token
      let verification_result :=
        verify_location_proof registry geodesicMiles now lp pending_tx
      let ptx₁ := { pending_tx with
                    status := "completed"
                    result := some verification_result }
      let pending₁ := alistSet st.pending txid ptx₁
      let ctx : CompletedTx := { tx := ptx₁, completed_at := now_iso }
      let completed₁ := alistSet st.completed txid ctx
      if verification_result.result == "CONFIRM_REQUIRED" then
        let pending₂ :=
          alistSet pending₁ txid { ptx₁ with status := "pending_confirmation" }
        ({ pending := pending₂, completed := completed₁ },
         [Emit.confirmationRequest ("card_" ++ card_token) txid
            pending_tx.amount pending_tx.merchant_name
            (resultDistance (some verification_result))
            verification_result.reason])
      else
        ({ pending := pending₁, completed := completed₁ },
         [Emit.transactionResult ("pos_" ++ txid) txid verification_result,
          Emit.transactionCompleted ("card_" ++ card_token) txid card_token
            ctx])

/-- `handle_confirmation_response(data)` (app.py lines 376–438): turn the
user's confirm/deny into the final result, mark the transaction completed,
store it in the history and notify both channels.  The only guards are the
truthiness of `transaction_id` and its presence in `pending_transactions`;
the stored status is never consulted. -/
def handle_confirmation_response (now_iso : String)
    (transaction_id : Option String) (confirmed : Option Bool)
    (st : ChannelState) : ChannelState × List Emit :=
  if !truthyStr transaction_id then
    (st, [Emit.errorEvt "Missing transaction ID"])
  else
    let txid := transaction_id.getD ""
    match alistGet st.pending txid with
    | none => (st, [Emit.errorEvt "Transaction not found"])
    | some pending_tx =>
      let result : VerificationResult :=
        if confirmed.getD false then
          { success := true, result := "ACCEPT",
            reason := "User confirmed transaction",
            distance_meters := some (resultDistance pending_tx.result) }
        else
          { success := true, result := "DENY",
            reason := "User denied transaction",
            distance_meters := some (resultDistance pending_tx.result) }
      let ptx₁ := { pending_tx with
                    status := "completed"
                    result := some result }
      let pending₁ := alistSet st.pending txid ptx₁
      let ctx : CompletedTx := { tx := ptx₁, completed_at := now_iso }
      let completed₁ := alistSet st.completed txid ctx
      ({ pending := pending₁, completed := completed₁ },
       [Emit.transactionResult ("pos_" ++ txid) txid result,
        Emit.transactionCompleted ("card_" ++ pending_tx.card_token) txid
          pending_tx.card_token ctx])

/-- `timeout_confirmation()` (app.py lines 332–356): the body of the
30-second timer thread after its sleep.  It closes over the transaction id
and the verification result computed at proof time; it fires only while the
status is still `pending_confirmation`, writes the auto-deny result into
`pending_transactions`, and emits the result to the POS room — it updates
neither `completed_transactions` nor the device channel. -/
def timeout_confirmation (transaction_id : String)
    (verification_result : VerificationResult) (st : ChannelState) :
    ChannelState × List Emit :=
  match alistGet st.pending transaction_id with
  | some ptx =>
    if ptx.status == "pending_confirmation" then
      let result : VerificationResult :=
        { success := true, result := "DENY",
          reason := "Confirmation timeout - user did not respond",
          distance_meters := some (verification_result.distance_meters.getD 0) }
      let pending₁ := alistSet st.pending transaction_id
        { ptx with
          status := "completed"
          result := some result }
      ({ st with pending := pending₁ },
       [Emit.transactionResult ("pos_" ++ transaction_id) transaction_id
          result])
    else (st, [])
  | none => (st, [])

/-! ## Step-up (2FA) confirmation (`verify_2fa`, app.py lines 839–967) -/

/-- A `pending_2fa_transactions` entry as written by `validate_transaction`.
`timestamp` is the `datetime.utcnow()` at creation, in microseconds. -/
structure PendingStepUp where
  card_number : String
  amount : ℚ
  merchant_name : Option String
  phone_location : ℚ × ℚ
  transaction_location : ℚ × ℚ
  validation_result : ValidatorResult
  phone_number : String
  timestamp : ℤ
deriving DecidableEq

/-- Outcome of the external Twilio verification-check collaborator: either a
status string (compared against `'approved'`) or a raised exception. -/
inductive TwilioOutcome
  | result (status : String)
  | raised (message : String)
deriving DecidableEq

/-- The success response of `verify_2fa`, built from the stored record. -/
structure TwoFaSuccess where
  transaction_approved : Bool
  verification_status : String
  card_number : String
  amount : ℚ
  merchant_name : Option String
  phone_location : ℚ × ℚ
  transaction_location : ℚ × ℚ
  distance_miles : ℚ
  reason : String
deriving DecidableEq

/-- The final validation response assembled from a `PendingStepUp` record. -/
def buildTwoFaSuccess (p : PendingStepUp) : TwoFaSuccess :=
  { transaction_approved := p.validation_result.valid,
    verification_status := "approved",
    card_number := p.card_number,
    amount := p.amount,
    merchant_name := p.merchant_name,
    phone_location := p.phone_location,
    transaction_location := p.transaction_location,
    distance_miles := p.validation_result.distance_miles,
    reason := p.validation_result.reason }

/-- The possible response bodies of `POST /api/transaction/verify-2fa`. -/
inductive TwoFaResp
  | missingFields
  | notFound
  | expired
  | approvedOk (resp : TwoFaSuccess)
  | verificationFailed (status : String)
  | verificationRaised (message : String)
  | notConfigured
deriving DecidableEq

/-- `verify_2fa()` (app.py lines 839–967): returns the response body, the
HTTP status code, and the updated `pending_2fa_transactions` store.  The
Twilio client is the external collaborator `twilioCheck`, called with the
stored phone number and the submitted code. -/
def verify_2fa (twilioConfigured : Bool)
    (twilioCheck : String → String → TwilioOutcome) (now : ℤ)
    (transaction_id verification_code : Option String)
    (store : List (String × PendingStepUp)) :
    TwoFaResp × ℕ × List (String × PendingStepUp) :=
  if !truthyStr transaction_id || !truthyStr verification_code then
    (TwoFaResp.missingFields, 400, store)
  else
    let txid := transaction_id.getD ""
    match alistGet store txid with
    | none => (TwoFaResp.notFound, 404, store)
    | some pending_tx =>
      if now - pending_tx.timestamp > 300000000 then
        (TwoFaResp.expired, 400, alistDel store txid)
      else if twilioConfigured then
        match twilioCheck pending_tx.phone_number (verification_code.getD "") with
        | TwilioOutcome.result status =>
          if status == "approved" then
            (TwoFaResp.approvedOk (buildTwoFaSuccess pending_tx), 200,
             alistDel store txid)
          else
            (TwoFaResp.verificationFailed status, 400, store)
        | TwilioOutcome.raised e => (TwoFaResp.verificationRaised e, 500, store)
      else (TwoFaResp.notConfigured, 500, store)

/-! ## Transaction history (`get_transaction_history`, app.py lines 1234–1326) -/

/-- A transaction formatted for the mobile app.  The record always carries
its keys, so the `.get(key, default)` fallbacks written in the source fire
only for `completed_at`/`result` style keys that are always present too; the
raw stored optional values are kept. -/
structure FormattedTx where
  id : String
  card_token : String
  amount : Option ℚ
  merchant_name : Option String
  timestamp : String
  completed_at : String
  status : String
  result : Option VerificationResult
  pos_location : Option LocDict
deriving DecidableEq

/-- Formatting of one history entry. -/
def formatTx (tx_id : String) (c : CompletedTx) : FormattedTx :=
  { id := tx_id,
    card_token := c.tx.card_token,
    amount := c.tx.amount,
    merchant_name := c.tx.merchant_name,
    timestamp := c.tx.timestamp,
    completed_at := c.completed_at,
    status := c.tx.status,
    result := c.tx.result,
    pos_location := c.tx.pos_location }

/-- Python `lst[:n]` for a possibly negative `n`. -/
def pySlice {α : Type} (l : List α) (n : ℤ) : List α :=
  if n ≥ 0 then l.take n.toNat
  else l.take (l.length - (-n).toNat)

/-- The ordering of `sort(key=lambda x: x['timestamp'], reverse=True)`:
larger creation timestamps first.  Python performs a stable sort; the model
uses the (stable) insertion sort with the same total preorder. -/
def tsDesc (a b : FormattedTx) : Prop :=
  b.timestamp ≤ a.timestamp

instance : DecidableRel tsDesc := fun a b =>
  inferInstanceAs (Decidable (b.timestamp ≤ a.timestamp))

/-- Response bodies of `GET /api/transactions/history`. -/
inductive HistoryResp
  | missingParam
  | okResp (transactions : List FormattedTx) (total : ℕ) (card_token : String)
deriving DecidableEq

/-- `get_transaction_history()` (app.py lines 1234–1326): 400 when
`card_token` is missing (or empty, both falsy), otherwise the card's entries
of `completed_transactions`, formatted, sorted by creation timestamp most
recent first, and truncated to `limit` (query default 50).  `limit` arrives
already parsed: `int(...)` runs before the card_token check and a
non-numeric value raises into the 500 handler, outside this model. -/
def get_transaction_history (card_token : Option String) (limit : Option ℤ)
    (completed : List (String × CompletedTx)) : HistoryResp × ℕ :=
  if !truthyStr card_token then (HistoryResp.missingParam, 400)
  else
    let ct := card_token.getD ""
    let card_transactions :=
      (completed.filter (fun e => e.2.tx.card_token == ct)).map
        (fun e => formatTx e.1 e.2)
    let sorted := List.insertionSort tsDesc card_transactions
    let truncated := pySlice sorted (limit.getD 50)
    (HistoryResp.okResp truncated truncated.length ct, 200)

/-! ## Small lemmas about the dict model -/

theorem alistGet_set_self {α : Type} (l : List (String × α)) (k : String)
    (v : α) : alistGet (alistSet l k v) k = some v := by
  induction l with
  | nil => simp [alistSet, alistGet]
  | cons hd tl ih =>
      by_cases h : hd.1 = k
      · simp [alistSet, alistGet, h]
      · simpa [alistSet, alistGet, h] using ih

/-! ## C1 — the distance/amount decision policy -/

/-- Claim C1 counterexample: the claimed mapping requires CONFIRM_REQUIRED
for d ≤ 20 m and amount ≥ 100, and claims the channel path and the
synchronous path compute the same function of (d, amount) including at
amount = 100 exactly — but at distance 0 and amount exactly 100 the
synchronous path (`prove_location`, amount > 100 test) returns ACCEPT while
the channel path (`verify_location_proof`, amount < 100 test) returns
CONFIRM_REQUIRED. -/
theorem c1_counterexample :
    (proveLocationDecision 0 100).1 = "ACCEPT" ∧
    (verifyLocationProofDecision 0 100).1 = "CONFIRM_REQUIRED" ∧
    (proveLocationDecision 0 100).1 ≠ (verifyLocationProofDecision 0 100).1 := by
  refine ⟨by decide, by decide, by decide⟩

/-- Claim C1, amended: the channel path (`verify_location_proof`) implements
exactly the claimed mapping — ACCEPT iff d ≤ 20 and amount < 100,
CONFIRM_REQUIRED iff d ≤ 20 and amount ≥ 100 or 20 < d ≤ 500, DENY iff
d > 500; the synchronous path (`prove_location`) agrees with it at every
amount other than exactly 100, but at amount = 100 with d ≤ 20 it returns
ACCEPT (its high-value test is `amount > 100`). -/
theorem c1_decision_policy (d a : ℚ) :
    (d ≤ 20 → a < 100 → (verifyLocationProofDecision d a).1 = "ACCEPT") ∧
    (d ≤ 20 → 100 ≤ a → (verifyLocationProofDecision d a).1 = "CONFIRM_REQUIRED") ∧
    (20 < d → d ≤ 500 → (verifyLocationProofDecision d a).1 = "CONFIRM_REQUIRED") ∧
    (500 < d → (verifyLocationProofDecision d a).1 = "DENY") ∧
    (a ≠ 100 → (proveLocationDecision d a).1 = (verifyLocationProofDecision d a).1) ∧
    (d ≤ 20 → a = 100 → (proveLocationDecision d a).1 = "ACCEPT") := by
  refine ⟨?_, ?_, ?_, ?_, ?_, ?_⟩
  · intro h1 h2
    simp only [verifyLocationProofDecision]
    split_ifs <;> first | rfl | linarith
  · intro h1 h2
    simp only [verifyLocationProofDecision]
    split_ifs <;> first | rfl | linarith
  · intro h1 h2
    simp only [verifyLocationProofDecision]
    split_ifs <;> first | rfl | linarith
  · intro h1
    simp only [verifyLocationProofDecision]
    split_ifs <;> first | rfl | linarith
  · intro hne
    simp only [verifyLocationProofDecision, proveLocationDecision]
    split_ifs <;>
      first | rfl | linarith | (exact absurd (by linarith : a = 100) hne)
  · intro h1 h2
    simp only [proveLocationDecision]
    split_ifs <;> first | rfl | linarith

/-- Claim C1 witness: the amended policy evaluated at concrete inputs —
(0 m, $50) accepts on the channel path, (0 m, $100) escalates on the channel
path and accepts on the synchronous path, (5000 m, $20) denies. -/
theorem c1_witness :
    (verifyLocationProofDecision 0 50).1 = "ACCEPT" ∧
    (verifyLocationProofDecision 0 100).1 = "CONFIRM_REQUIRED" ∧
    (proveLocationDecision 0 100).1 = "ACCEPT" ∧
    (verifyLocationProofDecision 5000 20).1 = "DENY" ∧
    (proveLocationDecision 300 20).1 = (verifyLocationProofDecision 300 20).1 :=
  ⟨(c1_decision_policy 0 50).1 (by norm_num) (by norm_num),
   (c1_decision_policy 0 100).2.1 (by norm_num) (by norm_num),
   (c1_decision_policy 0 100).2.2.2.2.2 (by norm_num) rfl,
   (c1_decision_policy 5000 20).2.2.2.1 (by norm_num),
   (c1_decision_policy 300 20).2.2.2.2.1 (by norm_num)⟩

/-! ## Concrete demonstration inputs (used by witnesses and counterexamples) -/

/-- A registry binding one card token to a shared secret. -/
def demoRegistry : List (String × DeviceInfo) :=
  [("tok-1", { public_key := some "pub", private_key := some "sk" })]

/-- A location near Harvard Square. -/
def demoLoc : LocDict := { lat? := some (42377/1000), lon? := some (-711167/10000) }

/-- The canonicalized payload of the demonstration proof. -/
def demoProofData : ProofData :=
  { card_token := "tok-1", transaction_nonce := "n-1", transaction_id := "tx-1",
    location := demoLoc, timestamp := "2025-10-04T14:12:00Z",
    attestation := "mock_attestation_demo" }

/-- A correctly computed signature for the demonstration payload. -/
def demoSig : String := expectedSignature (canonicalProofData demoProofData) "sk"

/-- A well-formed, correctly signed demonstration proof. -/
def demoProof : LocationProof :=
  { card_token := some "tok-1", transaction_nonce := some "n-1",
    transaction_id := some "tx-1", location := some demoLoc,
    timestamp := some "2025-10-04T14:12:00Z",
    attestation := some "mock_attestation_demo", signature := some demoSig }

/-- A pending transaction awaiting the demonstration proof. -/
def demoTx : PendingTx :=
  { card_token := "card-9", transaction_nonce := some "n-1",
    pos_location := some demoLoc, amount := some 50,
    merchant_name := some "Shop", timestamp := "2025-10-04T14:11:00",
    status := "pending", result := none }

/-- A geodesy collaborator reporting 0.1 miles (≈ 160.9 m) everywhere. -/
def demoGeod : ℚ × ℚ → ℚ × ℚ → ℚ := fun _ _ => 1/10

/-- `2025-10-04T14:12:00` UTC in microseconds. -/
def demoNow : ℤ := 1759587120000000

/-- The channel state holding the demonstration transaction. -/
def demoState : ChannelState :=
  { pending := [("tx-1", demoTx)], completed := [] }

/-! ## C2 — late confirmations are not rejected (double finalization) -/

/-- The DENY result written by a confirmation timeout for the demo data. -/
def demoTimeoutDeny : VerificationResult :=
  { success := true, result := "DENY",
    reason := "Confirmation timeout - user did not respond",
    distance_meters := some 160 }

/-- A transaction that has already been finalized (auto-denied on timeout)
but, as always, remains in `pending_transactions` with status `completed`. -/
def demoCompletedTx : PendingTx :=
  { card_token := "card-2", transaction_nonce := some "n-2",
    pos_location := some demoLoc, amount := some 120,
    merchant_name := some "Shop", timestamp := "2025-10-04T14:10:00",
    status := "completed", result := some demoTimeoutDeny }

/-- The server state after that timeout finalization. -/
def demoLateState : ChannelState :=
  { pending := [("tx-2", demoCompletedTx)],
    completed := [("tx-2", { tx := demoCompletedTx,
                             completed_at := "2025-10-04T14:10:30" })] }

/-- The ACCEPT result a late `confirmed=true` writes for the demo data. -/
def demoUserAccept : VerificationResult :=
  { success := true, result := "ACCEPT",
    reason := "User confirmed transaction", distance_meters := some 160 }

set_option maxRecDepth 10000 in
/-- Claim C2 (code bug): submitting a confirmation for a transaction whose
status is already `completed` (here: finalized by the timeout auto-deny)
must fail and change nothing — but `handle_confirmation_response` checks
only membership in `pending_transactions`, never the status, so the late
`confirmed=true` overwrites the stored DENY with ACCEPT, rewrites the
history record, and re-notifies both channels: the transaction is finalized
twice. -/
theorem c2_late_confirmation_double_finalizes :
    handle_confirmation_response "2025-10-04T14:20:00" (some "tx-2")
      (some true) demoLateState =
    ({ pending := [("tx-2", { demoCompletedTx with result := some demoUserAccept })]
       completed := [("tx-2",
         { tx := { demoCompletedTx with result := some demoUserAccept }
           completed_at := "2025-10-04T14:20:00" })] },
     [Emit.transactionResult "pos_tx-2" "tx-2" demoUserAccept,
      Emit.transactionCompleted "card_card-2" "tx-2" "card-2"
        { tx := { demoCompletedTx with result := some demoUserAccept }
          completed_at := "2025-10-04T14:20:00" }]) := by
  with_unfolding_all rfl

/-! ## C3 — timeout auto-deny -/

/-- The result a confirmation timeout writes, given the verification result
computed at proof time. -/
def timeoutDenyOf (vr : VerificationResult) : VerificationResult :=
  { success := true, result := "DENY",
    reason := "Confirmation timeout - user did not respond",
    distance_meters := some (vr.distance_meters.getD 0) }

/-- Claim C3, amended: when the 30-second timer fires while the transaction
is still `pending_confirmation`, it auto-resolves to DENY with the
confirmation-timeout reason, preserving the previously computed distance,
and marks the pending record `completed` and emits the result to the
POS-side channel — but, unlike an explicit user resolution, it leaves the
per-card completed-transaction history untouched (the history keeps the
verification-time snapshot) and emits nothing to the device-side channel. -/
theorem c3_timeout_autodeny (st : ChannelState) (txid : String)
    (vr : VerificationResult) (ptx : PendingTx)
    (hget : alistGet st.pending txid = some ptx)
    (hstatus : ptx.status = "pending_confirmation") :
    (alistGet (timeout_confirmation txid vr st).1.pending txid =
      some { ptx with status := "completed", result := some (timeoutDenyOf vr) }) ∧
    (timeout_confirmation txid vr st).1.completed = st.completed ∧
    (timeout_confirmation txid vr st).2 =
      [Emit.transactionResult ("pos_" ++ txid) txid (timeoutDenyOf vr)] := by
  have hbeq : (ptx.status == "pending_confirmation") = true := by
    rw [hstatus]; rfl
  unfold timeout_confirmation
  rw [hget]
  simp [hbeq, alistGet_set_self, timeoutDenyOf]

/-- The verification result of the demonstration proof (computed by
`verify_location_proof` on the demo inputs, see `c4_counterexample`). -/
def demoConfirm : VerificationResult :=
  { success := true, result := "CONFIRM_REQUIRED",
    reason := "Location mismatch - confirmation required",
    distance_meters := some (16093/100) }

/-- The demo transaction as `handle_location_proof_response` leaves it after
escalating to confirmation. -/
def demoEscalatedTx : PendingTx :=
  { demoTx with status := "pending_confirmation", result := some demoConfirm }

/-- The server state after the demo escalation: the pending record is
`pending_confirmation` and the history already holds the verification-time
snapshot. -/
def demoEscalatedState : ChannelState :=
  { pending := [("tx-1", demoEscalatedTx)],
    completed := [("tx-1",
      { tx := { demoTx with status := "completed", result := some demoConfirm }
        completed_at := "2025-10-04T14:12:01" })] }

/-- Claim C3 counterexample: on timeout expiry the claim requires the same
finalize/notify/history steps as an explicit resolution — but the timeout
transition leaves the completed-transaction history exactly as it was
(still holding the CONFIRM_REQUIRED verification snapshot, not the DENY) and
emits only the POS-side `transaction_result`, no device-side
`transaction_completed`. -/
theorem c3_counterexample :
    (timeout_confirmation "tx-1" demoConfirm demoEscalatedState).1.completed =
      [("tx-1",
        { tx := { demoTx with status := "completed", result := some demoConfirm }
          completed_at := "2025-10-04T14:12:01" })] ∧
    (timeout_confirmation "tx-1" demoConfirm demoEscalatedState).2 =
      [Emit.transactionResult "pos_tx-1" "tx-1" (timeoutDenyOf demoConfirm)] := by
  constructor
  · with_unfolding_all rfl
  · with_unfolding_all rfl

/-- Claim C3 witness: the amended timeout behaviour at the concrete
escalated demo state. -/
theorem c3_witness :
    (alistGet (timeout_confirmation "tx-1" demoConfirm
        demoEscalatedState).1.pending "tx-1" =
      some { demoEscalatedTx with
               status := "completed"
               result := some (timeoutDenyOf demoConfirm) }) ∧
    (timeout_confirmation "tx-1" demoConfirm
        demoEscalatedState).1.completed = demoEscalatedState.completed ∧
    (timeout_confirmation "tx-1" demoConfirm demoEscalatedState).2 =
      [Emit.transactionResult "pos_tx-1" "tx-1" (timeoutDenyOf demoConfirm)] :=
  c3_timeout_autodeny demoEscalatedState "tx-1" demoConfirm demoEscalatedTx
    (by with_unfolding_all rfl) rfl

/-! ## C4 — CONFIRM_REQUIRED escalation and the history write -/

set_option maxRecDepth 200000 in
/-- Full evaluation of `verify_location_proof` on the demonstration inputs:
the correctly signed, fresh proof at 0.1 miles (≈ 160.93 m) from the POS for
a $50 transaction yields CONFIRM_REQUIRED. -/
theorem demoVerify_eq :
    verify_location_proof demoRegistry demoGeod demoNow demoProof demoTx =
      demoConfirm := by
  with_unfolding_all rfl

/-- Claim C4, amended: when verification yields CONFIRM_REQUIRED the handler
does set the pending record's status to `pending_confirmation` and emits only
the confirmation request — but the record is also written into the per-card
completed-transaction history at verification time (with a snapshot whose
status reads `completed`), for every decision, not only terminal ones; the
POS-side result and the device-side completion notification are emitted
exactly when the decision is terminal (ACCEPT or DENY). -/
theorem c4_escalation_and_history (registry : List (String × DeviceInfo))
    (geod : ℚ × ℚ → ℚ × ℚ → ℚ) (now : ℤ) (now_iso txid : String)
    (lp : LocationProof) (st : ChannelState) (ptx : PendingTx)
    (hne : txid.isEmpty = false)
    (hget : alistGet st.pending txid = some ptx) :
    (¬(verify_location_proof registry geod now lp ptx).result = "CONFIRM_REQUIRED" →
      alistGet (handle_location_proof_response registry geod now now_iso
          (some txid) (some lp) st).1.pending txid =
        some { ptx with
               status := "completed"
               result := some (verify_location_proof registry geod now lp ptx) } ∧
      alistGet (handle_location_proof_response registry geod now now_iso
          (some txid) (some lp) st).1.completed txid =
        some { tx := { ptx with
                       status := "completed"
                       result := some (verify_location_proof registry geod now lp ptx) }
               completed_at := now_iso } ∧
      (handle_location_proof_response registry geod now now_iso
          (some txid) (some lp) st).2 =
        [Emit.transactionResult ("pos_" ++ txid) txid
           (verify_location_proof registry geod now lp ptx),
         Emit.transactionCompleted ("card_" ++ ptx.card_token) txid
           ptx.card_token
           { tx := { ptx with
                     status := "completed"
                     result := some (verify_location_proof registry geod now lp ptx) }
             completed_at := now_iso }]) ∧
    ((verify_location_proof registry geod now lp ptx).result = "CONFIRM_REQUIRED" →
      alistGet (handle_location_proof_response registry geod now now_iso
          (some txid) (some lp) st).1.pending txid =
        some { ptx with
               status := "pending_confirmation"
               result := some (verify_location_proof registry geod now lp ptx) } ∧
      alistGet (handle_location_proof_response registry geod now now_iso
          (some txid) (some lp) st).1.completed txid =
        some { tx := { ptx with
                       status := "completed"
                       result := some (verify_location_proof registry geod now lp ptx) }
               completed_at := now_iso } ∧
      (handle_location_proof_response registry geod now now_iso
          (some txid) (some lp) st).2 =
        [Emit.confirmationRequest ("card_" ++ ptx.card_token) txid ptx.amount
           ptx.merchant_name
           (resultDistance (some (verify_location_proof registry geod now lp ptx)))
           (verify_location_proof registry geod now lp ptx).reason]) := by
  have htr : truthyStr (some txid) = true := by simp [truthyStr, hne]
  constructor
  · intro hres
    have hbeq : ((verify_location_proof registry geod now lp ptx).result ==
        "CONFIRM_REQUIRED") = false := by simpa using hres
    simp [handle_location_proof_response, htr, hget, hbeq, alistGet_set_self]
  · intro hres
    have hbeq : ((verify_location_proof registry geod now lp ptx).result ==
        "CONFIRM_REQUIRED") = true := by simpa using hres
    simp [handle_location_proof_response, htr, hget, hbeq, alistGet_set_self]

set_option maxRecDepth 200000 in
/-- Claim C4 counterexample: the claim requires that a CONFIRM_REQUIRED
transaction "is not moved into the per-card completed-transaction history" —
but on the demonstration input, whose verification yields CONFIRM_REQUIRED
(the pending status becomes `pending_confirmation`), the handler writes the
record into `completed_transactions` immediately, with a snapshot whose
status reads `completed`. -/
theorem c4_counterexample :
    handle_location_proof_response demoRegistry demoGeod demoNow
        "2025-10-04T14:12:01" (some "tx-1") (some demoProof) demoState =
      ({ pending := [("tx-1",
           { demoTx with
             status := "pending_confirmation"
             result := some demoConfirm })]
         completed := [("tx-1",
           { tx := { demoTx with
                     status := "completed"
                     result := some demoConfirm }
             completed_at := "2025-10-04T14:12:01" })] },
       [Emit.confirmationRequest "card_card-9" "tx-1" (some 50) (some "Shop")
          (16093/100) "Location mismatch - confirmation required"]) := by
  with_unfolding_all rfl

/-- Claim C4 witness: the amended escalation behaviour at the concrete
demonstration input. -/
theorem c4_witness :
    alistGet (handle_location_proof_response demoRegistry demoGeod demoNow
        "2025-10-04T14:12:01" (some "tx-1") (some demoProof)
        demoState).1.pending "tx-1" =
      some { demoTx with
             status := "pending_confirmation"
             result := some demoConfirm } ∧
    alistGet (handle_location_proof_response demoRegistry demoGeod demoNow
        "2025-10-04T14:12:01" (some "tx-1") (some demoProof)
        demoState).1.completed "tx-1" =
      some { tx := { demoTx with
                     status := "completed"
                     result := some demoConfirm }
             completed_at := "2025-10-04T14:12:01" } ∧
    (handle_location_proof_response demoRegistry demoGeod demoNow
        "2025-10-04T14:12:01" (some "tx-1") (some demoProof) demoState).2 =
      [Emit.confirmationRequest "card_card-9" "tx-1" (some 50) (some "Shop")
         (16093/100) "Location mismatch - confirmation required"] := by
  have h := (c4_escalation_and_history demoRegistry demoGeod demoNow
    "2025-10-04T14:12:01" "tx-1" demoProof demoState demoTx rfl
    (by with_unfolding_all rfl)).2 (by rw [demoVerify_eq]; rfl)
  rw [demoVerify_eq] at h
  exact h

/-! ## C7 — proof responses are not single-use -/

/-- Claim C7, amended: a location-proof response is rejected only when its
transaction id is absent from `pending_transactions`; since completed
transactions remain in that store (status `completed`), a later proof for
the same transaction id is verified again, and the stored result and the
history record are overwritten with the fresh verification outcome and both
channels are re-notified. -/
theorem c7_reverification (registry : List (String × DeviceInfo))
    (geod : ℚ × ℚ → ℚ × ℚ → ℚ) (now : ℤ) (now_iso txid : String)
    (lp : LocationProof) (st : ChannelState)
    (hne : txid.isEmpty = false) :
    (alistGet st.pending txid = none →
      handle_location_proof_response registry geod now now_iso (some txid)
        (some lp) st = (st, [Emit.errorEvt "Transaction not found"])) ∧
    (∀ ptx, alistGet st.pending txid = some ptx →
      (∃ p, alistGet (handle_location_proof_response registry geod now now_iso
          (some txid) (some lp) st).1.pending txid = some p ∧
        p.result = some (verify_location_proof registry geod now lp ptx)) ∧
      alistGet (handle_location_proof_response registry geod now now_iso
          (some txid) (some lp) st).1.completed txid =
        some { tx := { ptx with
                       status := "completed"
                       result := some (verify_location_proof registry geod now lp ptx) }
               completed_at := now_iso }) := by
  have htr : truthyStr (some txid) = true := by simp [truthyStr, hne]
  constructor
  · intro hnone
    simp [handle_location_proof_response, htr, hnone]
  · intro ptx hget
    by_cases hres :
        (verify_location_proof registry geod now lp ptx).result =
          "CONFIRM_REQUIRED"
    · have hbeq : ((verify_location_proof registry geod now lp ptx).result ==
          "CONFIRM_REQUIRED") = true := by simpa using hres
      refine ⟨⟨{ ptx with
                 status := "pending_confirmation"
                 result := some (verify_location_proof registry geod now lp ptx) },
               ?_, rfl⟩, ?_⟩ <;>
        simp [handle_location_proof_response, htr, hget, hbeq,
          alistGet_set_self]
    · have hbeq : ((verify_location_proof registry geod now lp ptx).result ==
          "CONFIRM_REQUIRED") = false := by simpa using hres
      refine ⟨⟨{ ptx with
                 status := "completed"
                 result := some (verify_location_proof registry geod now lp ptx) },
               ?_, rfl⟩, ?_⟩ <;>
        simp [handle_location_proof_response, htr, hget, hbeq,
          alistGet_set_self]

/-- An already-ACCEPTed transaction result. -/
def demoAccept : VerificationResult :=
  { success := true, result := "ACCEPT",
    reason := "Co-located low-value transaction", distance_meters := some 0 }

/-- A transaction already verified and completed with ACCEPT; as always it
also remains in `pending_transactions`. -/
def demoDoneTx : PendingTx :=
  { card_token := "card-7", transaction_nonce := some "n-7",
    pos_location := some demoLoc, amount := some 30,
    merchant_name := some "Cafe", timestamp := "2025-10-04T14:00:00",
    status := "completed", result := some demoAccept }

/-- The server state holding that completed transaction. -/
def demoDoneState : ChannelState :=
  { pending := [("tx-7", demoDoneTx)],
    completed := [("tx-7", { tx := demoDoneTx
                             completed_at := "2025-10-04T14:00:05" })] }

/-- A second, incomplete proof replayed for the completed transaction. -/
def demoJunkProof : LocationProof :=
  { card_token := some "tok-1", transaction_nonce := none,
    transaction_id := some "tx-7", location := some demoLoc,
    timestamp := some "2025-10-04T14:29:00Z",
    attestation := some "mock_attestation_demo", signature := none }

/-- Claim C7 counterexample: the claim says that once a transaction has been
verified and completed, no later proof response for the same id is verified
again or changes the stored result or history — but replaying a (here:
incomplete, hence DENY-verifying) proof for the completed `tx-7` is verified
again: the stored ACCEPT is overwritten with the fresh DENY in both the
pending store and the history, and both channels are re-notified. -/
theorem c7_counterexample :
    handle_location_proof_response demoRegistry demoGeod demoNow
        "2025-10-04T14:30:00" (some "tx-7") (some demoJunkProof)
        demoDoneState =
      ({ pending := [("tx-7",
           { demoDoneTx with
             result := some (denyResult "Missing required fields") })]
         completed := [("tx-7",
           { tx := { demoDoneTx with
                     result := some (denyResult "Missing required fields") }
             completed_at := "2025-10-04T14:30:00" })] },
       [Emit.transactionResult "pos_tx-7" "tx-7"
          (denyResult "Missing required fields"),
        Emit.transactionCompleted "card_card-7" "tx-7" "card-7"
          { tx := { demoDoneTx with
                    result := some (denyResult "Missing required fields") }
            completed_at := "2025-10-04T14:30:00" }]) := by
  with_unfolding_all rfl

/-- Claim C7 witness: the amended behaviour at the concrete replayed input —
the unknown id is rejected, the completed id is re-verified and its history
record rewritten. -/
theorem c7_witness :
    (handle_location_proof_response demoRegistry demoGeod demoNow
        "2025-10-04T14:30:00" (some "tx-0") (some demoJunkProof)
        demoDoneState = (demoDoneState,
          [Emit.errorEvt "Transaction not found"])) ∧
    (∃ p, alistGet (handle_location_proof_response demoRegistry demoGeod
        demoNow "2025-10-04T14:30:00" (some "tx-7") (some demoJunkProof)
        demoDoneState).1.pending "tx-7" = some p ∧
      p.result = some (verify_location_proof demoRegistry demoGeod demoNow
        demoJunkProof demoDoneTx)) :=
  ⟨(c7_reverification demoRegistry demoGeod demoNow "2025-10-04T14:30:00"
      "tx-0" demoJunkProof demoDoneState rfl).1 (by with_unfolding_all rfl),
   ((c7_reverification demoRegistry demoGeod demoNow "2025-10-04T14:30:00"
      "tx-7" demoJunkProof demoDoneState rfl).2 demoDoneTx
      (by with_unfolding_all rfl)).1⟩

/-! ## C6 — timestamp freshness boundary -/

/-- A result produced by the outer exception handler differs from the two
freshness denials: its reason starts with the letter V. -/
theorem ve_ne_deny (e r : String) (hr : r.data.head? = some 'P' ∨ r.data.head? = some 'I') :
    verificationError e ≠ denyResult r := by
  intro h
  have h2 : "Verification error: " ++ e = r := congrArg VerificationResult.reason h
  have h3 := congrArg String.data h2
  rw [String.data_append] at h3
  rcases hr with hr | hr <;>
    · rw [← h3] at hr
      simp at hr

/-- Claim C6: for every proof that passes the field, registration,
attestation and signature checks, the freshness stage accepts a timestamp
whose age `now - t` is at most 300 seconds — in particular exactly 300
seconds — rejects as `Proof timestamp too old` any age strictly greater
than 300 seconds, and rejects an unparseable timestamp as
`Invalid timestamp format` rather than stale.  (`now - t` is the difference
of naive components, which for UTC timestamps — trailing `Z` or `+00:00` —
is the wall-clock age; see `parseTimestamp`.) -/
theorem c6_freshness (registry : List (String × DeviceInfo))
    (geod : ℚ × ℚ → ℚ × ℚ → ℚ) (now : ℤ) (lp : LocationProof)
    (tx : PendingTx) (ct tn ti : String) (loc : LocDict)
    (ts att sig : String) (di : DeviceInfo)
    (hct : lp.card_token = some ct) (htn : lp.transaction_nonce = some tn)
    (hti : lp.transaction_id = some ti) (hloc : lp.location = some loc)
    (hts : lp.timestamp = some ts) (hatt : lp.attestation = some att)
    (hsig : lp.signature = some sig)
    (hfields : (ct.isEmpty || tn.isEmpty || ti.isEmpty || !loc.truthy ||
      ts.isEmpty || att.isEmpty || sig.isEmpty) = false)
    (hreg : alistGet registry ct = some di)
    (hkeys : (!truthyStr di.private_key || !truthyStr di.public_key) = false)
    (hatt2 : verify_attestation (some att) = true)
    (hsigok : verify_signature
      { card_token := ct, transaction_nonce := tn, transaction_id := ti,
        location := loc, timestamp := ts, attestation := att }
      sig (di.private_key.getD "") = true) :
    (parseTimestamp ts = none →
      verify_location_proof registry geod now lp tx =
        denyResult "Invalid timestamp format") ∧
    (∀ t : ℤ, parseTimestamp ts = some t → 300000000 < now - t →
      verify_location_proof registry geod now lp tx =
        denyResult "Proof timestamp too old") ∧
    (∀ t : ℤ, parseTimestamp ts = some t → now - t ≤ 300000000 →
      verify_location_proof registry geod now lp tx ≠
        denyResult "Proof timestamp too old" ∧
      verify_location_proof registry geod now lp tx ≠
        denyResult "Invalid timestamp format") := by
  simp only [verify_location_proof, verifyLocationProofCore, hct, htn, hti,
    hloc, hts, hatt, hsig, hfields, hreg, hkeys, hatt2, hsigok,
    Bool.not_true, if_false, Bool.false_eq_true]
  refine ⟨?_, ?_, ?_⟩
  · intro hnone
    rw [hnone]
  · intro t ht hgt
    simp only [ht]
    rw [if_pos (show now - t > 300000000 from hgt)]
  · intro t ht hle
    simp only [ht]
    rw [if_neg (show ¬now - t > 300000000 from not_lt.mpr hle)]
    cases hpos : !truthyLoc tx.pos_location with
    | true =>
        simp only [hpos, if_true]
        constructor <;> intro h <;>
          exact absurd (congrArg VerificationResult.reason h) (by decide)
    | false =>
        simp only [hpos, Bool.false_eq_true, if_false]
        cases h1 : locLatLon loc with
        | error e =>
            simp only [h1, bind, Except.bind]
            constructor <;>
              exact ve_ne_deny e _ (by first | exact Or.inl rfl | exact Or.inr rfl)
        | ok mpair =>
            cases h2 : locLatLon (tx.pos_location.getD
                { lat? := none, lon? := none, extraKeys := false }) with
            | error e =>
                simp only [h1, h2, bind, Except.bind]
                constructor <;>
                  exact ve_ne_deny e _ (by first | exact Or.inl rfl | exact Or.inr rfl)
            | ok ppair =>
                simp only [h1, h2, bind, Except.bind, pure, Except.pure]
                constructor <;> intro h <;>
                · have hs := congrArg VerificationResult.success h
                  simp [denyResult] at hs

/-- The canonicalized payload carrying an unparseable timestamp. -/
def demoBadTsProofData : ProofData :=
  { demoProofData with timestamp := "not-a-timestamp" }

/-- A correct signature for the unparseable-timestamp payload. -/
def demoBadTsSig : String :=
  expectedSignature (canonicalProofData demoBadTsProofData) "sk"

/-- A proof with an unparseable timestamp, correctly signed for that
payload (so that it reaches the freshness stage). -/
def demoBadTsProof : LocationProof :=
  { demoProof with
    timestamp := some "not-a-timestamp"
    signature := some demoBadTsSig }

set_option maxRecDepth 200000 in
/-- The demo signature, evaluated. -/
theorem demoSig_eq :
    demoSig = "ab2f14b312ad6094857b6a96cb578e3f8c586bcb7d00a1a5df5ba093279124c6" := by
  with_unfolding_all rfl

set_option maxRecDepth 200000 in
/-- The unparseable-timestamp demo signature, evaluated. -/
theorem demoBadTsSig_eq :
    demoBadTsSig = "e4d5db5c00f836965f28b0864ea1c7aa5001272c36b679c1577b31d660d03716" := by
  with_unfolding_all rfl

/-- Claim C6 witness: at the demo inputs, a proof aged exactly 300 seconds
passes the freshness stage, the same proof aged 301 seconds is rejected as
stale, and an unparseable timestamp is rejected as invalid format. -/
theorem c6_witness :
    verify_location_proof demoRegistry demoGeod 1759587420000000 demoProof
        demoTx ≠ denyResult "Proof timestamp too old" ∧
    verify_location_proof demoRegistry demoGeod 1759587421000000 demoProof
        demoTx = denyResult "Proof timestamp too old" ∧
    verify_location_proof demoRegistry demoGeod 1759587420000000
        demoBadTsProof demoTx = denyResult "Invalid timestamp format" :=
  ⟨((c6_freshness demoRegistry demoGeod 1759587420000000 demoProof demoTx
      "tok-1" "n-1" "tx-1" demoLoc "2025-10-04T14:12:00Z"
      "mock_attestation_demo" demoSig
      { public_key := some "pub", private_key := some "sk" }
      rfl rfl rfl rfl rfl rfl rfl (by simp only [demoSig_eq]; decide)
      (by with_unfolding_all rfl) (by decide) (by decide)
      (by simp [verify_signature, demoSig, demoProofData])).2.2
      1759587120000000 (by decide) (by decide)).1,
   (c6_freshness demoRegistry demoGeod 1759587421000000 demoProof demoTx
      "tok-1" "n-1" "tx-1" demoLoc "2025-10-04T14:12:00Z"
      "mock_attestation_demo" demoSig
      { public_key := some "pub", private_key := some "sk" }
      rfl rfl rfl rfl rfl rfl rfl (by simp only [demoSig_eq]; decide)
      (by with_unfolding_all rfl) (by decide) (by decide)
      (by simp [verify_signature, demoSig, demoProofData])).2.1
      1759587120000000 (by decide) (by decide),
   (c6_freshness demoRegistry demoGeod 1759587420000000 demoBadTsProof demoTx
      "tok-1" "n-1" "tx-1" demoLoc "not-a-timestamp"
      "mock_attestation_demo" demoBadTsSig
      { public_key := some "pub", private_key := some "sk" }
      rfl rfl rfl rfl rfl rfl rfl (by simp only [demoBadTsSig_eq]; decide)
      (by with_unfolding_all rfl) (by decide) (by decide)
      (by simp [verify_signature, demoBadTsSig, demoBadTsProofData,
        demoProofData])).1
      (by decide)⟩

/-! ## C9 — verify_location_proof is total and fail-closed -/

/-- The decision component the policy can produce. -/
theorem verifyLocationProofDecision_mem (d a : ℚ) :
    (verifyLocationProofDecision d a).1 = "ACCEPT" ∨
    (verifyLocationProofDecision d a).1 = "DENY" ∨
    (verifyLocationProofDecision d a).1 = "CONFIRM_REQUIRED" := by
  unfold verifyLocationProofDecision
  split_ifs <;> simp

/-- Inversion for a successful `Except` bind. -/
theorem except_bind_ok {γ α β : Type} (x : Except γ α) (f : α → Except γ β)
    (b : β) (h : (x >>= f) = Except.ok b) :
    ∃ a, x = Except.ok a ∧ f a = Except.ok b := by
  cases x with
  | error e => simp [bind, Except.bind] at h
  | ok a => exact ⟨a, rfl, by simpa [bind, Except.bind] using h⟩

/-- Every normally returned result of the verification body is fail-closed:
an unsuccessful result is a DENY, and the decision is one of the three
decision strings. -/
theorem verifyLocationProofCore_ok (registry : List (String × DeviceInfo))
    (geod : ℚ × ℚ → ℚ × ℚ → ℚ) (now : ℤ) (lp : LocationProof)
    (tx : PendingTx) (r : VerificationResult)
    (hcore : verifyLocationProofCore registry geod now lp tx = Except.ok r) :
    (r.success = false → r.result = "DENY") ∧
    (r.result = "ACCEPT" ∨ r.result = "DENY" ∨
      r.result = "CONFIRM_REQUIRED") := by
  unfold verifyLocationProofCore at hcore
  repeat' first
    | split at hcore
    | simp only [] at hcore
  all_goals
    try (simp only [Except.ok.injEq] at hcore; subst hcore;
         exact ⟨fun _ => rfl, Or.inr (Or.inl rfl)⟩)
  · -- the success path: two fallible coordinate extractions, then `pure`
    obtain ⟨mp, h1, hcore⟩ := except_bind_ok _ _ _ hcore
    obtain ⟨pp, h2, hcore⟩ := except_bind_ok _ _ _ hcore
    simp only [pure, Except.pure, Except.ok.injEq] at hcore
    subst hcore
    exact ⟨fun hfalse => by simp at hfalse,
      (verifyLocationProofDecision_mem _ _).imp id (Or.imp id id)⟩

/-- Claim C9: `verify_location_proof` is a total function of its inputs (the
embedding is a Lean function; the one unguarded exception source inside the
`try:` body, the coordinate extraction, is caught by the outer handler and
returned as a DENY).  Whenever the returned result has `success = false` its
decision is DENY, and every returned decision is one of exactly ACCEPT,
DENY, CONFIRM_REQUIRED (the `reason` field is always present by the shape of
`VerificationResult`). -/
theorem c9_fail_closed (registry : List (String × DeviceInfo))
    (geod : ℚ × ℚ → ℚ × ℚ → ℚ) (now : ℤ) (lp : LocationProof)
    (tx : PendingTx) :
    ((verify_location_proof registry geod now lp tx).success = false →
      (verify_location_proof registry geod now lp tx).result = "DENY") ∧
    ((verify_location_proof registry geod now lp tx).result = "ACCEPT" ∨
     (verify_location_proof registry geod now lp tx).result = "DENY" ∨
     (verify_location_proof registry geod now lp tx).result =
       "CONFIRM_REQUIRED") := by
  unfold verify_location_proof
  cases hcore : verifyLocationProofCore registry geod now lp tx with
  | ok r => exact verifyLocationProofCore_ok registry geod now lp tx r hcore
  | error e => exact ⟨fun _ => rfl, Or.inr (Or.inl rfl)⟩

/-- A proof payload with every field absent. -/
def demoEmptyProof : LocationProof :=
  { card_token := none, transaction_nonce := none, transaction_id := none,
    location := none, timestamp := none, attestation := none,
    signature := none }

/-- Claim C9 witness: the fail-closed property applied at a concrete failing
input (an empty proof payload, which verifies unsuccessfully). -/
theorem c9_witness :
    (verify_location_proof demoRegistry demoGeod demoNow demoEmptyProof
      demoTx).result = "DENY" :=
  (c9_fail_closed demoRegistry demoGeod demoNow demoEmptyProof demoTx).1
    (by with_unfolding_all rfl)

/-! ## C8 — step-up (2FA) confirmation -/

/-- Claim C8: with the verification collaborator configured, a step-up
confirm call with an unknown transaction id fails not-found and deletes
nothing; a record older than 300 seconds fails expired and is deleted; a
rejected verification code returns a verification-failed error and leaves
the record in place (so the caller can retry until expiry); an approved code
returns the final validation response built from the stored record and
deletes it. -/
theorem c8_step_up_confirm (twilioCheck : String → String → TwilioOutcome)
    (now : ℤ) (txid code : String) (store : List (String × PendingStepUp))
    (htx : txid.isEmpty = false) (hcode : code.isEmpty = false) :
    (alistGet store txid = none →
      verify_2fa true twilioCheck now (some txid) (some code) store =
        (TwoFaResp.notFound, 404, store)) ∧
    (∀ p, alistGet store txid = some p → 300000000 < now - p.timestamp →
      verify_2fa true twilioCheck now (some txid) (some code) store =
        (TwoFaResp.expired, 400, alistDel store txid)) ∧
    (∀ p s, alistGet store txid = some p → now - p.timestamp ≤ 300000000 →
      twilioCheck p.phone_number code = TwilioOutcome.result s →
      s ≠ "approved" →
      verify_2fa true twilioCheck now (some txid) (some code) store =
        (TwoFaResp.verificationFailed s, 400, store)) ∧
    (∀ p, alistGet store txid = some p → now - p.timestamp ≤ 300000000 →
      twilioCheck p.phone_number code = TwilioOutcome.result "approved" →
      verify_2fa true twilioCheck now (some txid) (some code) store =
        (TwoFaResp.approvedOk (buildTwoFaSuccess p), 200,
          alistDel store txid)) := by
  have ht1 : truthyStr (some txid) = true := by simp [truthyStr, htx]
  have ht2 : truthyStr (some code) = true := by simp [truthyStr, hcode]
  refine ⟨?_, ?_, ?_, ?_⟩
  · intro hnone
    simp [verify_2fa, ht1, ht2, hnone]
  · intro p hget hgt
    simp [verify_2fa, ht1, ht2, hget, hgt]
  · intro p s hget hle hcheck hs
    simp [verify_2fa, ht1, ht2, hget, not_lt.mpr hle, hcheck, hs]
  · intro p hget hle hcheck
    simp [verify_2fa, ht1, ht2, hget, not_lt.mpr hle, hcheck]

/-- The validator output stored in the demo step-up record. -/
def demoValidation : ValidatorResult :=
  { valid := true, distance_miles := 1/10,
    reason := "Transaction within 0.25 miles" }

/-- A pending step-up record created at `demoNow`. -/
def demoStepUp : PendingStepUp :=
  { card_number := "4532-1234-5678-9012", amount := 150,
    merchant_name := some "Electronics",
    phone_location := (42377/1000, -711167/10000),
    transaction_location := (42377/1000, -711167/10000),
    validation_result := demoValidation, phone_number := "+1234567890",
    timestamp := 1759587120000000 }

/-- The step-up store holding the demo record. -/
def demoStepUpStore : List (String × PendingStepUp) := [("su-1", demoStepUp)]

/-- A collaborator that approves exactly the code `123456`. -/
def demoTwilio : String → String → TwilioOutcome := fun _ code =>
  if code == "123456" then TwilioOutcome.result "approved"
  else TwilioOutcome.result "pending"

/-- Claim C8 witness: the four confirm branches at concrete inputs — unknown
id, expired record, wrong code (record kept), approved code (record
deleted). -/
theorem c8_witness :
    verify_2fa true demoTwilio 1759587220000000 (some "su-0") (some "123456")
        demoStepUpStore = (TwoFaResp.notFound, 404, demoStepUpStore) ∧
    verify_2fa true demoTwilio 1759587421000000 (some "su-1") (some "123456")
        demoStepUpStore = (TwoFaResp.expired, 400, []) ∧
    verify_2fa true demoTwilio 1759587220000000 (some "su-1") (some "999999")
        demoStepUpStore =
      (TwoFaResp.verificationFailed "pending", 400, demoStepUpStore) ∧
    verify_2fa true demoTwilio 1759587220000000 (some "su-1") (some "123456")
        demoStepUpStore =
      (TwoFaResp.approvedOk (buildTwoFaSuccess demoStepUp), 200, []) :=
  ⟨(c8_step_up_confirm demoTwilio 1759587220000000 "su-0" "123456"
      demoStepUpStore rfl rfl).1 (by with_unfolding_all rfl),
   (c8_step_up_confirm demoTwilio 1759587421000000 "su-1" "123456"
      demoStepUpStore rfl rfl).2.1 demoStepUp (by with_unfolding_all rfl)
      (by decide),
   (c8_step_up_confirm demoTwilio 1759587220000000 "su-1" "999999"
      demoStepUpStore rfl rfl).2.2.1 demoStepUp "pending"
      (by with_unfolding_all rfl) (by decide) (by decide) (by decide),
   (c8_step_up_confirm demoTwilio 1759587220000000 "su-1" "123456"
      demoStepUpStore rfl rfl).2.2.2 demoStepUp (by with_unfolding_all rfl)
      (by decide) (by decide)⟩

/-! ## C10 — transaction history query -/

instance : IsTotal FormattedTx tsDesc :=
  ⟨fun a b => (le_total b.timestamp a.timestamp).imp id id⟩

instance : IsTrans FormattedTx tsDesc :=
  ⟨fun _ _ _ hab hbc => le_trans hbc hab⟩

/-- Python list slicing `l[:n]` is a `take`. -/
theorem pySlice_eq_take {α : Type} (l : List α) (n : ℤ) :
    ∃ m : ℕ, pySlice l n = l.take m := by
  unfold pySlice
  split_ifs <;> exact ⟨_, rfl⟩

/-- Claim C10: the history query fails with a client error (400) when
`card_token` is missing (falsy), and otherwise returns exactly the entries
of `completed_transactions` belonging to that card, formatted, sorted most
recent first by creation timestamp, truncated to the requested limit (query
default 50), with `total` equal to the returned length. -/
theorem c10_history (card_token : Option String) (limit : Option ℤ)
    (completed : List (String × CompletedTx)) :
    (truthyStr card_token = false →
      get_transaction_history card_token limit completed =
        (HistoryResp.missingParam, 400)) ∧
    (∀ ct, card_token = some ct → ct.isEmpty = false →
      ∃ txs : List FormattedTx,
        get_transaction_history card_token limit completed =
          (HistoryResp.okResp txs txs.length ct, 200) ∧
        (∀ t ∈ txs, t.card_token = ct) ∧
        (∀ t ∈ txs, ∃ e ∈ completed, t = formatTx e.1 e.2) ∧
        List.Sorted tsDesc txs ∧
        (∀ n : ℤ, limit.getD 50 = n → 0 ≤ n → (txs.length : ℤ) ≤ n)) := by
  constructor
  · intro hfalsy
    simp [get_transaction_history, hfalsy]
  · intro ct hct hne
    have htr : truthyStr card_token = true := by simp [hct, truthyStr, hne]
    have htr2 : truthyStr (some ct) = true := by simp [truthyStr, hne]
    refine ⟨pySlice
      (List.insertionSort tsDesc
        ((List.filter (fun e => e.2.tx.card_token == ct) completed).map
          (fun e => formatTx e.1 e.2)))
      (limit.getD 50), ?_, ?_, ?_, ?_, ?_⟩
    · simp [get_transaction_history, htr, htr2, hct]
    · intro t ht
      rw [(pySlice_eq_take _ _).choose_spec] at ht
      have hmem := List.take_subset _ _ ht
      have hmem2 := (List.perm_insertionSort tsDesc _).mem_iff.mp hmem
      obtain ⟨e, he, rfl⟩ := List.mem_map.mp hmem2
      have hf := (List.mem_filter.mp he).2
      simpa [formatTx] using beq_iff_eq.mp hf
    · intro t ht
      rw [(pySlice_eq_take _ _).choose_spec] at ht
      have hmem := List.take_subset _ _ ht
      have hmem2 := (List.perm_insertionSort tsDesc _).mem_iff.mp hmem
      obtain ⟨e, he, rfl⟩ := List.mem_map.mp hmem2
      exact ⟨e, (List.mem_filter.mp he).1, rfl⟩
    · obtain ⟨m, hm⟩ := pySlice_eq_take
        (List.insertionSort tsDesc
          ((List.filter (fun e => e.2.tx.card_token == ct) completed).map
            (fun e => formatTx e.1 e.2)))
        (limit.getD 50)
      rw [hm]
      exact List.Pairwise.sublist (List.take_sublist _ _)
        (List.sorted_insertionSort _ _)
    · intro n hn hn0
      rw [hn]
      unfold pySlice
      rw [if_pos hn0]
      simp only [List.length_take]
      omega

/-- A history with transactions of two cards. -/
def demoHistory : List (String × CompletedTx) :=
  [("tx-7", { tx := demoDoneTx, completed_at := "2025-10-04T14:00:05" }),
   ("tx-8", { tx := { demoDoneTx with card_token := "card-8" }
              completed_at := "2025-10-04T14:05:00" }),
   ("tx-9", { tx := { demoDoneTx with timestamp := "2025-10-04T15:00:00" }
              completed_at := "2025-10-04T15:00:05" })]

/-- Claim C10 witness: a missing card token yields 400; a present one
yields 200 with only that card entries. -/
theorem c10_witness :
    get_transaction_history none (some 50) demoHistory =
      (HistoryResp.missingParam, 400) ∧
    ∃ txs : List FormattedTx,
      get_transaction_history (some "card-7") none demoHistory =
        (HistoryResp.okResp txs txs.length "card-7", 200) ∧
      ∀ t ∈ txs, t.card_token = "card-7" := by
  refine ⟨(c10_history none (some 50) demoHistory).1 rfl, ?_⟩
  obtain ⟨txs, h1, h2, -⟩ :=
    (c10_history (some "card-7") none demoHistory).2 "card-7" rfl rfl
  exact ⟨txs, h1, h2⟩

/-! ## Signature round-trip facts (development for the signing scheme)

The statable halves of the round-trip property: a signature computed with
the registered shared secret for a payload verifies, and any other submitted
signature string fails.  That a *changed payload field* always fails is
exactly collision-freeness of the SHA-256 pipeline on distinct canonical
serializations, which is a cryptographic assumption, not a provable fact of
the embedding. -/

theorem expectedSignature_round_trip (pd : ProofData) (k : String) :
    verify_signature pd (expectedSignature (canonicalProofData pd) k) k =
      true := by
  simp [verify_signature]

theorem verify_signature_true_iff (pd : ProofData) (s k : String) :
    verify_signature pd s k = true ↔
      s = expectedSignature (canonicalProofData pd) k := by
  simp [verify_signature]

theorem verify_signature_other_fails (pd : ProofData) (s k : String)
    (hs : s ≠ expectedSignature (canonicalProofData pd) k) :
    verify_signature pd s k = false := by
  simp [verify_signature, hs]
